import Mathlib

/-!
# health-checker-cloud-tcp: probe, retry loop and alert pipeline

A shallow embedding of `healthchecker.go`, `smtp.go` and `types.go`.

* Go `int` and `time.Duration` are integers; the attempt counter of the retry
  loop wraps as a signed 64-bit integer.
* `log.Fatal` / `log.Fatalf` end the process: constructors return `Except`,
  and effectful functions return a `Run` that is either a normal return or a
  fatal exit.
* Everything outside the process (environment variables, the network, the
  HTTP and SMTP libraries, the embedded template) is an explicit `Env` of
  oracles; every effect is recorded, in order, in a list of `Event`s.
* The retry loop is unrolled by an iteration count, so that a loop that never
  breaks is visible as such.
-/

namespace HealthChecker

/-! ## Data model (types.go) -/

/-- A `net.IP` is a byte slice; the nil slice is `none`. -/
abbrev NetIP := Option (List Nat)

structure Target where
  IP : NetIP
  Host : NetIP
  URL : String
  Port : Int
  Packets : Int
deriving DecidableEq, Repr

structure Result where
  Success : Bool
  Message : String
deriving DecidableEq, Repr

structure userAuth where
  Username : String
  Password : String
deriving DecidableEq, Repr

structure TCPHCType where
  typ : String
deriving DecidableEq, Repr

structure TCPOptions where
  hcType : TCPHCType
  ip : NetIP
  port : Int
  packets : Int
  URL : String
  isAuth : Bool
deriving DecidableEq, Repr

structure TCPChecker where
  Target : Target
  TCPOptions : TCPOptions
  Timeout : Int
deriving DecidableEq, Repr

/-- The map `validHCTypes`, as its list of entries. -/
def validHCTypes : List (String × Bool) := [("tcp", true), ("cloud", true)]

structure EmailRequest where
  From : String
  To : List String
  Subject : String
  Body : String
deriving DecidableEq, Repr

/-! ## Effects and the outside world -/

/-- Observable effects, in program order. -/
inductive Event where
  | dialTimeout (network addr : String) (timeout : Int)
  | connClose
  | doAuth (url : String)
  | httpPost (url contentType body : String)
  | respBodyClose
  | printf (text : String)
  | alert (recipients : List String) (subject body : String)
  | smtpDial (network addr : String)
  | smtpConnOpened
  | smtpNewClient (host : String)
  | smtpStartTLS (serverName : String)
  | smtpAuth (user host : String)
  | smtpMail (sender : String)
  | smtpRcpt (recipient : String)
  | smtpData
  | smtpWrite (body : String)
  | smtpDataClose
  | smtpQuit
  | smtpReleased
deriving DecidableEq, Repr

/-- A failure reported by a call into `net/smtp`. The library decides by
itself whether it also closed the connection before reporting (as
`smtp.NewClient` does when the greeting fails); `released` records that. -/
structure SmtpErr where
  msg : String
  released : Bool
deriving DecidableEq, Repr

/-- The outside world as seen during one probe attempt. -/
structure Env where
  /-- Value of `os.Getenv`. -/
  getenv : String → String
  /-- Value of `net.IP.String`. -/
  ipString : NetIP → String
  /-- Outcome of `net.DialTimeout network addr timeout`: `none` is a connection. -/
  dialTimeout : String → String → Int → Option String
  /-- Value of `json.Marshal` on a `userAuth`. -/
  jsonMarshal : userAuth → String
  /-- Outcome of `http.Post url contentType body`: the status code of the response, or a transport error. -/
  httpPost : String → String → String → Except String Int
  /-- Outcome of `TemplateEmbedded.ReadFile`. -/
  readFile : String → Except String String
  /-- Outcome of `template.New("template").Parse`: `none` is a parsed template. -/
  templateParse : String → Option String
  /-- Outcome of executing the parsed template on a `Message`. -/
  templateExecute : String → String → Except String String
  /-- Outcome of `net.Dial network addr` towards the mail server. -/
  smtpDial : String → String → Option String
  smtpNewClient : String → Option SmtpErr
  smtpStartTLS : String → Option SmtpErr
  smtpAuth : String → String → String → Option SmtpErr
  smtpMail : String → Option SmtpErr
  smtpRcpt : String → Option SmtpErr
  smtpData : Option SmtpErr
  smtpWrite : String → Option SmtpErr
  smtpDataClose : Option SmtpErr
  smtpQuit : Option SmtpErr
  /-- Value of `time.Since(start)` around the probe. -/
  latency : Int

/-- A call that either returns a value or ends the process through `log.Fatal`. -/
inductive Run (α : Type) where
  | ret (value : α) (trace : List Event)
  | fatal (msg : String) (trace : List Event)

/-- Go `int` arithmetic on a 64-bit platform: wrap into the signed range. -/
def wrapInt (x : Int) : Int :=
  (x + 9223372036854775808) % 18446744073709551616 - 9223372036854775808

/-- Rendering of an `error` by the `%v` verb; a nil error prints as `<nil>`. -/
def errString : Option String → String
  | none => "<nil>"
  | some e => e

/-- Rendering of a `bool` by the `%v` verb. -/
def boolString (b : Bool) : String := if b then "true" else "false"

/-! ## healthchecker.go: configuration -/

def TCPHCTypeValidator (t : String) : Bool :=
  (validHCTypes.lookup t).getD false

def NewTCPOpts (hcType : String) (ip : NetIP) (port packets : Int) (url : String)
    (isAuth : Bool) : Except String TCPOptions :=
  if !TCPHCTypeValidator hcType then
    .error ("Health checker type not allowed: " ++ hcType)
  else if hcType = "tcp" ∧ (ip = none ∨ port = 0) then
    .error "For 'tcp', IP and Port must be specified"
  else if hcType = "cloud" ∧ url = "" then
    .error "For 'cloud', URL must be specified"
  else
    .ok { hcType := { typ := hcType }, ip := ip, port := port, packets := packets,
          URL := url, isAuth := isAuth }

/-- The options pointer may be nil (`none`). -/
def NewTCPChecker (opts : Option TCPOptions) : Except String TCPChecker :=
  match opts with
  | none => .error "TCPOptions cannot be nil"
  | some o =>
    if o.hcType.typ = "tcp" ∧ (o.ip = none ∨ o.port = 0) then
      .error "TCP health-check requires valid IP and Port"
    else if o.hcType.typ = "cloud" ∧ o.URL = "" then
      .error "Cloud health-check requires a valid URL"
    else
      .ok { Target := { IP := o.ip, Host := none, Port := o.port, Packets := o.packets,
                        URL := o.URL },
            TCPOptions := o,
            Timeout := 0 }

def addr (hc : TCPChecker) (env : Env) : Except String String :=
  if hc.TCPOptions.hcType.typ ≠ "tcp" then
    .error "addr() called for non-TCP health-check type"
  else
    .ok (env.ipString hc.Target.IP ++ ":" ++ toString hc.Target.Port)

/-! ## smtp.go: the notifier transport -/

def NewEmailRequest (env : Env) (recipients : List String) (subject body : String)
    (sender : List String) : EmailRequest :=
  match sender with
  | [] => { From := env.getenv "SMTP_EMAIL_FROM", To := recipients, Subject := subject, Body := body }
  | f :: _ => { From := f, To := recipients, Subject := subject, Body := body }

/-- What a failed library call leaves behind in the trace. -/
def libFailure (e : SmtpErr) : List Event :=
  if e.released then [Event.smtpReleased] else []

/-- The `for _, to := range r.To` loop of `SendEmail`: stops at the first
rejected recipient. -/
def rcptLoop (env : Env) : List String → Option SmtpErr × List Event
  | [] => (none, [])
  | rcpt :: rest =>
    match env.smtpRcpt rcpt with
    | some e => (some e, Event.smtpRcpt rcpt :: libFailure e)
    | none =>
      let (r, t) := rcptLoop env rest
      (r, Event.smtpRcpt rcpt :: t)

/-- `SendEmail` returns its error (`none` is nil), the request with its
rewritten body, and the trace. The function itself never closes the
connection or the client; only `client.Quit()` at the very end, when it
succeeds, ends the session (the library then closes the connection). -/
def SendEmail (env : Env) (r : EmailRequest) : Option String × EmailRequest × List Event :=
  let smtpPassword := env.getenv "SMTP_EMAIL_PASSWORD"
  let smtpUser := env.getenv "SMTP_EMAIL_USERNAME"
  let smtpHost := env.getenv "SMTP_EMAIL_HOST"
  let smtpPort := env.getenv "SMTP_EMAIL_PORT"
  let r : EmailRequest :=
    { r with Body := "MIME-Version: 1.0\r\n" ++
        "Content-Type: text/html; charset=\"UTF-8\"\r\n" ++
        "Subject: " ++ r.Subject ++ "\r\n\r\n" ++
        r.Body }
  let t0 := [Event.smtpDial "tcp" (smtpHost ++ ":" ++ smtpPort)]
  match env.smtpDial "tcp" (smtpHost ++ ":" ++ smtpPort) with
  | some e => (some ("failed to connect to SMTP server: " ++ e), r, t0)
  | none =>
  let t1 := t0 ++ [Event.smtpConnOpened, Event.smtpNewClient smtpHost]
  match env.smtpNewClient smtpHost with
  | some e => (some ("failed to create SMTP client: " ++ e.msg), r, t1 ++ libFailure e)
  | none =>
  let t2 := t1 ++ [Event.smtpStartTLS smtpHost]
  match env.smtpStartTLS smtpHost with
  | some e => (some e.msg, r, t2 ++ libFailure e)
  | none =>
  let t3 := t2 ++ [Event.smtpAuth smtpUser smtpHost]
  match env.smtpAuth smtpUser smtpPassword smtpHost with
  | some e => (some e.msg, r, t3 ++ libFailure e)
  | none =>
  let t4 := t3 ++ [Event.smtpMail r.From]
  match env.smtpMail r.From with
  | some e => (some ("failed to set sender: " ++ e.msg), r, t4 ++ libFailure e)
  | none =>
  match rcptLoop env r.To with
  | (some e, tr) => (some ("failed to set recipient: " ++ e.msg), r, t4 ++ tr)
  | (none, tr) =>
  let t5 := t4 ++ tr ++ [Event.smtpData]
  match env.smtpData with
  | some e => (some ("failed to open data connection: " ++ e.msg), r, t5 ++ libFailure e)
  | none =>
  let t6 := t5 ++ [Event.smtpWrite r.Body]
  match env.smtpWrite r.Body with
  | some e => (some ("failed to write email body: " ++ e.msg), r, t6 ++ libFailure e)
  | none =>
  let t7 := t6 ++ [Event.smtpDataClose]
  match env.smtpDataClose with
  | some e => (some ("failed to close data connection: " ++ e.msg), r, t7 ++ libFailure e)
  | none =>
  let t8 := t7 ++ [Event.smtpQuit]
  match env.smtpQuit with
  | some e => (some ("failed to quit: " ++ e.msg), r, t8 ++ libFailure e)
  | none => (none, r, t8 ++ [Event.smtpReleased])

def ParseTemplate (env : Env) (r : EmailRequest) (templatePath : String) (message : String) :
    Option String × EmailRequest :=
  match env.readFile templatePath with
  | .error e => (some e, r)
  | .ok templateContent =>
    match env.templateParse templateContent with
    | some e => (some e, r)
    | none =>
      match env.templateExecute templateContent message with
      | .error e => (some e, r)
      | .ok tpl => (none, { r with Body := tpl })

/-- Whether a mail connection opened in a trace is still open at its end. -/
def connOpenAtEnd (t : List Event) : Bool :=
  t.foldl (fun isOpen e =>
    if e = Event.smtpConnOpened then true
    else if e = Event.smtpReleased then false
    else isOpen) false

/-! ## healthchecker.go: probes -/

/-- `DoAuth` returns `(status, err)` (`none` is a nil error) and its trace,
which starts with a `doAuth` event recording the call. -/
def DoAuth (hc : TCPChecker) (env : Env) : (Int × Option String) × List Event :=
  if hc.Target.URL = "" then
    ((0, some "No target provided"), [Event.doAuth hc.Target.URL])
  else
    let username := env.getenv "USER_USERNAME"
    let pw := env.getenv "USER_PASSWORD"
    if username = "" ∨ pw = "" then
      ((0, some "Missing username or password in environment variables"),
        [Event.doAuth hc.Target.URL])
    else
      let user : userAuth := { Username := username, Password := pw }
      let body := env.jsonMarshal user
      match env.httpPost hc.Target.URL "application/json" body with
      | .error e =>
        ((0, some ("Error while doing post request: " ++ e)),
          [Event.doAuth hc.Target.URL, Event.httpPost hc.Target.URL "application/json" body,
           Event.printf ("Error while doing post request: " ++ e)])
      | .ok statusCode =>
        ((statusCode, none),
          [Event.doAuth hc.Target.URL, Event.httpPost hc.Target.URL "application/json" body,
           Event.respBodyClose])

/-- The notifier. Its invocation is recorded as an `alert` event. -/
def sendAlertEmail (env : Env) (recipients : List String) (subject body : String) :
    Option String × List Event :=
  let emailReq := NewEmailRequest env recipients subject body []
  match ParseTemplate env emailReq "hc_alert.html" body with
  | (some e, _) =>
    (some ("error parsing email template: " ++ e), [Event.alert recipients subject body])
  | (none, emailReq) =>
    match SendEmail env emailReq with
    | (some e, _, t) =>
      (some ("error sending email: " ++ e), Event.alert recipients subject body :: t)
    | (none, _, t) => (none, Event.alert recipients subject body :: t)

def performTCPCheck (hc : TCPChecker) (timeout : Int) (env : Env) : Run Result :=
  match addr hc env with
  | .error m => .fatal m []
  | .ok a =>
    match env.dialTimeout "tcp" a timeout with
    | some err =>
      .ret { Success := false, Message := "Failed to connect: " ++ err }
        [Event.dialTimeout "tcp" a timeout]
    | none =>
      .ret { Success := true, Message := "TCP connection successful" }
        [Event.dialTimeout "tcp" a timeout, Event.connClose]

def performCloudCheck (hc : TCPChecker) (env : Env) : Result × List Event :=
  if !hc.TCPOptions.isAuth then
    ({ Success := true, Message := "Cloud health check without auth passed" }, [])
  else
    match DoAuth hc env with
    | ((status, err), t) =>
      if err ≠ none ∨ status ≠ 200 then
        let msg := "Status code: " ++ toString status ++ "\n Cloud check failed: " ++
          errString err ++ "\n"
        let sent := sendAlertEmail env
          ["victorreisprog@gmail.com", "victorreis@biofy.tech", "guilhermejesus@biofy.tech",
           "pedroleao@biofy.tech"]
          "⚠️ ALERT - API IS DOWN ⚠️" msg
        ({ Success := false, Message := msg }, t ++ sent.2)
      else
        ({ Success := true, Message := "Cloud check passed" }, t)

def Check (hc : TCPChecker) (timeout : Int) (env : Env) : Run Result :=
  if hc.TCPOptions.hcType.typ = "tcp" then
    performTCPCheck hc timeout env
  else if hc.TCPOptions.hcType.typ = "cloud" then
    let r := performCloudCheck hc env
    .ret r.1 r.2
  else
    .ret { Success := false, Message := "Unknown health check type" } []

/-! ## healthchecker.go: the retry loop -/

/-- What the retry loop itself does, in program order: a call of `Check`
(the `index`-th, counting from 0, with how it ended), a line written to
`logOutput`, a `time.Sleep`. -/
inductive LoopEvent where
  | check (index : Nat) (outcome : Run Result)
  | logWrite (line : String)
  | sleep (d : Int)

/-- Local variables of `CheckWithRetries`, with the number of `Check` calls
made so far and the trace as ghost state. `result` starts as the nil pointer. -/
structure LoopState where
  attempt : Int
  result : Option Result
  calls : Nat
  trace : List LoopEvent

/-- Where the loop stands: `next` is about to run the body again
(initially, or after the sleep), `done` has left the loop through `break` and
returns `result`, `fatal` is a process exit inside the probe. -/
inductive LoopStep where
  | next (s : LoopState)
  | done (s : LoopState)
  | fatal (msg : String) (s : LoopState)

/-- The line written to `logOutput` after an attempt. -/
def logLine (attempt : Int) (result : Result) (duration : Int) : String :=
  "Health Check Attempt " ++ toString attempt ++ " - Success: " ++
    boolString result.Success ++ ", Latency: " ++ toString duration ++ ", MSG: " ++
    result.Message ++ "\n"

/-- The state once `Check` has returned `result` with trace `t`: the attempt
counter is incremented and the attempt is logged. -/
def recordAttempt (s : LoopState) (result : Result) (t : List Event) (duration : Int) :
    LoopState :=
  { attempt := wrapInt (s.attempt + 1),
    result := some result,
    calls := s.calls + 1,
    trace := s.trace ++ [LoopEvent.check s.calls (Run.ret result t),
      LoopEvent.logWrite (logLine (wrapInt (s.attempt + 1)) result duration)] }

/-- One pass through the body of the `for` loop. The `k`-th call of `Check`
(counting from 0) sees the world `world k`. -/
def loopBody (hc : TCPChecker) (world : Nat → Env) (retries retryDelay : Int)
    (s : LoopState) : LoopStep :=
  let env := world s.calls
  match Check hc hc.Timeout env with
  | .fatal m t =>
    .fatal m { s with calls := s.calls + 1,
                      trace := s.trace ++ [LoopEvent.check s.calls (Run.fatal m t)] }
  | .ret result t =>
    let s1 := recordAttempt s result t env.latency
    if retries ≠ -1 ∧ s1.attempt ≥ retries then
      .done s1
    else
      .next { s1 with trace := s1.trace ++ [LoopEvent.sleep retryDelay] }

/-- The loop after at most `k` passes through its body. -/
def loopAfter (hc : TCPChecker) (world : Nat → Env) (retries retryDelay : Int) :
    Nat → LoopStep
  | 0 => .next { attempt := 0, result := none, calls := 0, trace := [] }
  | k + 1 =>
    match loopAfter hc world retries retryDelay k with
    | .next s => loopBody hc world retries retryDelay s
    | other => other

/-- How a call of `CheckWithRetries` ends. -/
inductive LoopExit where
  | returned (result : Option Result) (trace : List LoopEvent)
  | fatal (msg : String) (trace : List LoopEvent)

/-- `CheckWithRetries` run for at most `fuel` passes through the loop body:
`none` when the loop is still running after that many passes, otherwise how
the call ended. -/
def CheckWithRetries (hc : TCPChecker) (world : Nat → Env) (retries retryDelay : Int)
    (fuel : Nat) : Option LoopExit :=
  match loopAfter hc world retries retryDelay fuel with
  | .next _ => none
  | .done s => some (.returned s.result s.trace)
  | .fatal m s => some (.fatal m s.trace)

/-- Number of `Check` calls in a loop trace. -/
def countChecks : List LoopEvent → Nat
  | [] => 0
  | LoopEvent.check _ _ :: t => countChecks t + 1
  | _ :: t => countChecks t

/-- Number of `time.Sleep` calls in a loop trace. -/
def countSleeps : List LoopEvent → Nat
  | [] => 0
  | LoopEvent.sleep _ :: t => countSleeps t + 1
  | _ :: t => countSleeps t

/-- Bodies of the alerts raised in a trace, in order. -/
def alertBodies (t : List Event) : List String :=
  t.filterMap (fun e => match e with | .alert _ _ body => some body | _ => none)

/-- Requests issued over HTTP in a trace. -/
def httpRequests (t : List Event) : List Event :=
  t.filter (fun e => match e with | .httpPost _ _ _ => true | _ => false)

/-! ## Names used in the statements -/

/-- Message of a failed authenticated cloud check, as formatted from the
outcome of `DoAuth`. -/
def cloudFailureMessage (status : Int) (err : Option String) : String :=
  "Status code: " ++ toString status ++ "\n Cloud check failed: " ++ errString err ++ "\n"

/-- The fixed recipients of an alert. -/
def alertRecipients : List String :=
  ["victorreisprog@gmail.com", "victorreis@biofy.tech", "guilhermejesus@biofy.tech",
   "pedroleao@biofy.tech"]

/-- The address a tcp checker connects to. -/
def dialAddr (hc : TCPChecker) (env : Env) : String :=
  env.ipString hc.Target.IP ++ ":" ++ toString hc.Target.Port

/-- The initial state of the loop. -/
def initialState : LoopState := { attempt := 0, result := none, calls := 0, trace := [] }

/-- The state in which the loop goes round again after an attempt: the
attempt is recorded and the delay has been slept. -/
def afterSleep (s : LoopState) (result : Result) (t : List Event) (duration retryDelay : Int) :
    LoopState :=
  { recordAttempt s result t duration with
    trace := (recordAttempt s result t duration).trace ++ [LoopEvent.sleep retryDelay] }

/-! ## Sample worlds and checkers -/

/-- A world in which the target refuses connections, the API answers 500, no
credentials are set and the mail server rejects every recipient. -/
def sampleEnv : Env :=
  { getenv := fun _ => "",
    ipString := fun _ => "10.0.0.1",
    dialTimeout := fun _ _ _ => some "connection refused",
    jsonMarshal := fun u => u.Username ++ ":" ++ u.Password,
    httpPost := fun _ _ _ => .ok 500,
    readFile := fun _ => .ok "tmpl",
    templateParse := fun _ => none,
    templateExecute := fun _ m => .ok m,
    smtpDial := fun _ _ => none,
    smtpNewClient := fun _ => none,
    smtpStartTLS := fun _ => none,
    smtpAuth := fun _ _ _ => none,
    smtpMail := fun _ => none,
    smtpRcpt := fun _ => some { msg := "550 rejected", released := false },
    smtpData := none,
    smtpWrite := fun _ => none,
    smtpDataClose := none,
    smtpQuit := none,
    latency := 7 }

/-- The same world with every environment variable set to `x`. -/
def sampleEnvSet : Env := { sampleEnv with getenv := fun _ => "x" }

/-- The world of `sampleEnvSet` with a mail server that accepts everything. -/
def sampleEnvMailOk : Env := { sampleEnvSet with smtpRcpt := fun _ => none }

/-- The world of `sampleEnvSet` with an unreadable template. -/
def sampleEnvNoTemplate : Env :=
  { sampleEnvSet with readFile := fun _ => .error "file does not exist" }

def sampleTCP : TCPChecker :=
  { Target := { IP := some [10, 0, 0, 1], Host := none, URL := "", Port := 80, Packets := 0 },
    TCPOptions := { hcType := { typ := "tcp" }, ip := some [10, 0, 0, 1], port := 80,
                    packets := 0, URL := "", isAuth := false },
    Timeout := 5 }

def sampleCloud (isAuth : Bool) : TCPChecker :=
  { Target := { IP := none, Host := none, URL := "http://api", Port := 0, Packets := 0 },
    TCPOptions := { hcType := { typ := "cloud" }, ip := none, port := 0,
                    packets := 0, URL := "http://api", isAuth := isAuth },
    Timeout := 5 }

/-- The alert mail of the failed check with status 500, as `sendAlertEmail`
hands it to `SendEmail`. -/
def sampleRequest : EmailRequest :=
  { From := "x", To := alertRecipients, Subject := "⚠️ ALERT - API IS DOWN ⚠️",
    Body := cloudFailureMessage 500 none }

/-! ## Configuration -/

theorem TCPHCTypeValidator_iff (t : String) :
    TCPHCTypeValidator t = true ↔ t = "tcp" ∨ t = "cloud" := by
  unfold TCPHCTypeValidator validHCTypes
  by_cases h1 : t = "tcp"
  · subst h1; simp [List.lookup]
  · by_cases h2 : t = "cloud"
    · subst h2; simp [List.lookup]
    · have e1 : (t == "tcp") = false := by simpa using h1
      have e2 : (t == "cloud") = false := by simpa using h2
      simp [List.lookup, e1, e2, h1, h2]

/-- C5: `NewTCPOpts` ends in a fatal configuration error exactly when the kind
is neither tcp nor cloud, or the kind is tcp and the IP is nil or the port is 0,
or the kind is cloud and the URL is empty; in every other case it returns
options whose fields are the inputs unchanged. -/
theorem NewTCPOpts_fatal_iff (hcType : String) (ip : NetIP) (port packets : Int)
    (url : String) (isAuth : Bool) :
    ((∃ m, NewTCPOpts hcType ip port packets url isAuth = .error m) ↔
      ((hcType ≠ "tcp" ∧ hcType ≠ "cloud") ∨
        (hcType = "tcp" ∧ (ip = none ∨ port = 0)) ∨
        (hcType = "cloud" ∧ url = ""))) ∧
    ((¬ ∃ m, NewTCPOpts hcType ip port packets url isAuth = .error m) ↔
      NewTCPOpts hcType ip port packets url isAuth =
        .ok { hcType := { typ := hcType }, ip := ip, port := port, packets := packets,
              URL := url, isAuth := isAuth }) := by
  have hv := TCPHCTypeValidator_iff hcType
  unfold NewTCPOpts
  by_cases hval : TCPHCTypeValidator hcType = true
  · have hk := hv.mp hval
    simp only [hval, Bool.not_true, Bool.false_eq_true, if_false]
    split_ifs with h1 h2
    · exact ⟨⟨fun _ => Or.inr (Or.inl h1), fun _ => ⟨_, rfl⟩⟩,
        ⟨fun h => absurd ⟨_, rfl⟩ h, fun h => by cases h⟩⟩
    · exact ⟨⟨fun _ => Or.inr (Or.inr h2), fun _ => ⟨_, rfl⟩⟩,
        ⟨fun h => absurd ⟨_, rfl⟩ h, fun h => by cases h⟩⟩
    · refine ⟨⟨fun ⟨m, hm⟩ => (by cases hm), fun hC => ?_⟩,
        ⟨fun _ => rfl, fun _ ⟨m, hm⟩ => (by cases hm)⟩⟩
      rcases hC with ⟨a, b⟩ | hC | hC
      · rcases hk with hk | hk
        · exact absurd hk a
        · exact absurd hk b
      · exact absurd hC h1
      · exact absurd hC h2
  · have hval2 : TCPHCTypeValidator hcType = false := by simpa using hval
    have hk : ¬ (hcType = "tcp" ∨ hcType = "cloud") := fun h => hval (hv.mpr h)
    simp only [hval2, Bool.not_false, if_true]
    exact ⟨⟨fun _ => Or.inl ⟨fun h => hk (Or.inl h), fun h => hk (Or.inr h)⟩,
        fun _ => ⟨_, rfl⟩⟩,
      ⟨fun h => absurd ⟨_, rfl⟩ h, fun h => by cases h⟩⟩

/-! ## Probes -/

/-- `Check` never ends the process: `addr` is only reached for a tcp checker. -/
theorem Check_returns (hc : TCPChecker) (timeout : Int) (env : Env) :
    ∃ r t, Check hc timeout env = Run.ret r t := by
  unfold Check
  split_ifs with h1 h2
  · unfold performTCPCheck addr
    simp only [ne_eq, h1, not_true_eq_false, if_false]
    cases env.dialTimeout "tcp" (env.ipString hc.Target.IP ++ ":" ++ toString hc.Target.Port)
      timeout with
    | none => exact ⟨_, _, rfl⟩
    | some e => exact ⟨_, _, rfl⟩
  · exact ⟨_, _, rfl⟩
  · exact ⟨_, _, rfl⟩

/-- C4: a cloud checker that does not require authentication always returns
success with the message "Cloud health check without auth passed", whatever its
URL and the environment, with an empty trace: `DoAuth` is not called, nothing
is requested and no alert is raised. -/
theorem Check_cloud_without_auth (hc : TCPChecker) (timeout : Int) (env : Env)
    (hkind : hc.TCPOptions.hcType.typ = "cloud") (hauth : hc.TCPOptions.isAuth = false) :
    Check hc timeout env =
      Run.ret { Success := true, Message := "Cloud health check without auth passed" } [] := by
  have hne : ¬ hc.TCPOptions.hcType.typ = "tcp" := by rw [hkind]; decide
  unfold Check performCloudCheck
  simp [hne, hkind, hauth]

theorem Check_cloud_without_auth_witness :
    (sampleCloud false).TCPOptions.hcType.typ = "cloud" ∧
    (sampleCloud false).TCPOptions.isAuth = false ∧
    Check (sampleCloud false) 5 sampleEnvSet =
      Run.ret { Success := true, Message := "Cloud health check without auth passed" } [] :=
  ⟨rfl, rfl, Check_cloud_without_auth (sampleCloud false) 5 sampleEnvSet rfl rfl⟩

/-- C7: `DoAuth` reports status 0 whenever it reports an error; with an empty
username or password it returns status 0 and an error without issuing any HTTP
request; when the POST fails in transport it returns status 0 and an error; and
it returns no error exactly when the POST yielded a response, whose status code
it then returns. -/
theorem DoAuth_status_zero_on_error (hc : TCPChecker) (env : Env) :
    ((DoAuth hc env).1.2 ≠ none → (DoAuth hc env).1.1 = 0) ∧
    ((env.getenv "USER_USERNAME" = "" ∨ env.getenv "USER_PASSWORD" = "") →
      (DoAuth hc env).1.1 = 0 ∧ (DoAuth hc env).1.2 ≠ none ∧
      httpRequests (DoAuth hc env).2 = []) ∧
    (∀ e, hc.Target.URL ≠ "" → env.getenv "USER_USERNAME" ≠ "" →
      env.getenv "USER_PASSWORD" ≠ "" →
      env.httpPost hc.Target.URL "application/json"
        (env.jsonMarshal { Username := env.getenv "USER_USERNAME",
                           Password := env.getenv "USER_PASSWORD" }) = .error e →
      (DoAuth hc env).1 = (0, some ("Error while doing post request: " ++ e))) ∧
    (∀ status, (DoAuth hc env).1 = (status, none) ↔
      (hc.Target.URL ≠ "" ∧ env.getenv "USER_USERNAME" ≠ "" ∧
        env.getenv "USER_PASSWORD" ≠ "" ∧
        env.httpPost hc.Target.URL "application/json"
          (env.jsonMarshal { Username := env.getenv "USER_USERNAME",
                             Password := env.getenv "USER_PASSWORD" }) = .ok status)) := by
  unfold DoAuth
  by_cases hurl : hc.Target.URL = ""
  · simp [hurl, httpRequests]
  · by_cases hu : env.getenv "USER_USERNAME" = ""
    · simp [hurl, hu, httpRequests]
    · by_cases hp : env.getenv "USER_PASSWORD" = ""
      · simp [hurl, hu, hp, httpRequests]
      · simp only [hurl, hu, hp, if_false, or_self]
        cases hpost : env.httpPost hc.Target.URL "application/json"
            (env.jsonMarshal { Username := env.getenv "USER_USERNAME",
                               Password := env.getenv "USER_PASSWORD" }) with
        | error e =>
          simp only [hpost]
          refine ⟨fun _ => trivial, ?_, ?_, ?_⟩ <;> simp
          intro e1 _ _ _ he
          rw [he]
        | ok code =>
          simp only [hpost]
          refine ⟨?_, ?_, ?_, fun status => ?_⟩ <;> simp [hurl, hu, hp]

theorem DoAuth_status_zero_on_error_witness :
    (DoAuth (sampleCloud true) sampleEnv).1 =
        (0, some "Missing username or password in environment variables") ∧
    httpRequests (DoAuth (sampleCloud true) sampleEnv).2 = [] ∧
    (DoAuth (sampleCloud true) sampleEnvSet).1 = (500, none) := by
  have h := DoAuth_status_zero_on_error (sampleCloud true) sampleEnv
  have h2 := (DoAuth_status_zero_on_error (sampleCloud true) sampleEnvSet).2.2.2 500
  refine ⟨?_, (h.2.1 (Or.inl rfl)).2.2, h2.mpr ⟨by decide, by decide, by decide, rfl⟩⟩
  rfl

theorem alertBodies_append (a b : List Event) :
    alertBodies (a ++ b) = alertBodies a ++ alertBodies b := by
  simp [alertBodies, List.filterMap_append]

theorem alertBodies_nil : alertBodies [] = [] := rfl

theorem alertBodies_cons (e : Event) (t : List Event) :
    alertBodies (e :: t) =
      (match e with
        | Event.alert _ _ body => [body]
        | _ => []) ++ alertBodies t := by
  cases e <;> simp [alertBodies, List.filterMap_cons]

theorem alertBodies_libFailure (e : SmtpErr) : alertBodies (libFailure e) = [] := by
  unfold libFailure
  split_ifs <;> simp [alertBodies_cons, alertBodies_nil]

theorem alertBodies_rcptLoop (env : Env) (l : List String) :
    alertBodies (rcptLoop env l).2 = [] := by
  induction l with
  | nil => simp [rcptLoop, alertBodies_nil]
  | cons a rest ih =>
    unfold rcptLoop
    cases h : env.smtpRcpt a with
    | some e => simp [alertBodies_cons, alertBodies_libFailure]
    | none => simp [alertBodies_cons, ih]

theorem alertBodies_SendEmail (env : Env) (r : EmailRequest) :
    alertBodies (SendEmail env r).2.2 = [] := by
  have hl := alertBodies_libFailure
  have hr := alertBodies_rcptLoop env r.To
  unfold SendEmail
  simp only []
  split
  · simp [alertBodies_cons, alertBodies_nil]
  split
  · simp [alertBodies_cons, alertBodies_nil, alertBodies_append, hl]
  split
  · simp [alertBodies_cons, alertBodies_nil, alertBodies_append, hl]
  split
  · simp [alertBodies_cons, alertBodies_nil, alertBodies_append, hl]
  split
  · simp [alertBodies_cons, alertBodies_nil, alertBodies_append, hl]
  split
  · rename_i e tr heq
    rw [heq] at hr
    simp only [] at hr
    simp [alertBodies_cons, alertBodies_nil, alertBodies_append, hr]
  rename_i tr heq
  rw [heq] at hr
  simp only [] at hr
  split
  · simp [alertBodies_cons, alertBodies_nil, alertBodies_append, hl, hr]
  split
  · simp [alertBodies_cons, alertBodies_nil, alertBodies_append, hl, hr]
  split
  · simp [alertBodies_cons, alertBodies_nil, alertBodies_append, hl, hr]
  split
  · simp [alertBodies_cons, alertBodies_nil, alertBodies_append, hl, hr]
  · simp [alertBodies_cons, alertBodies_nil, alertBodies_append, hl, hr]

/-- One call of the notifier raises exactly one alert, carrying its body. -/
theorem alertBodies_sendAlertEmail (env : Env) (recipients : List String)
    (subject body : String) :
    alertBodies (sendAlertEmail env recipients subject body).2 = [body] := by
  unfold sendAlertEmail
  simp only []
  split
  · simp [alertBodies_cons, alertBodies_nil]
  · split
    · rename_i req _ _ e r t heq
      have := alertBodies_SendEmail env req
      rw [heq] at this
      simp only [] at this
      simp [alertBodies_cons, this]
    · rename_i req _ _ r t heq
      have := alertBodies_SendEmail env req
      rw [heq] at this
      simp only [] at this
      simp [alertBodies_cons, this]

theorem alertBodies_DoAuth (hc : TCPChecker) (env : Env) :
    alertBodies (DoAuth hc env).2 = [] := by
  unfold DoAuth
  simp only []
  split_ifs
  · simp [alertBodies_cons, alertBodies_nil]
  · simp [alertBodies_cons, alertBodies_nil]
  · split <;> simp [alertBodies_cons, alertBodies_nil]

theorem performCloudCheck_of_DoAuth (hc : TCPChecker) (env : Env) (status : Int)
    (err : Option String) (t : List Event)
    (hauth : hc.TCPOptions.isAuth = true) (hout : DoAuth hc env = ((status, err), t)) :
    performCloudCheck hc env =
      if err ≠ none ∨ status ≠ 200 then
        ({ Success := false, Message := cloudFailureMessage status err },
          t ++ (sendAlertEmail env alertRecipients "⚠️ ALERT - API IS DOWN ⚠️"
            (cloudFailureMessage status err)).2)
      else
        ({ Success := true, Message := "Cloud check passed" }, t) := by
  unfold performCloudCheck
  simp only [hauth, Bool.not_true, Bool.false_eq_true, if_false, hout]
  rfl

/-- C3: for a cloud checker that requires authentication and any outcome
`(status, err)` of `DoAuth`, `performCloudCheck` succeeds exactly when `err` is
nil and `status` is 200, and then raises no alert; otherwise it fails and raises
exactly one alert, whose body is the returned failure message. -/
theorem performCloudCheck_success_iff (hc : TCPChecker) (env : Env) (status : Int)
    (err : Option String) (t : List Event)
    (hauth : hc.TCPOptions.isAuth = true) (hout : DoAuth hc env = ((status, err), t)) :
    ((performCloudCheck hc env).1.Success = true ↔ (err = none ∧ status = 200)) ∧
    ((err = none ∧ status = 200) →
      performCloudCheck hc env = ({ Success := true, Message := "Cloud check passed" }, t) ∧
      alertBodies (performCloudCheck hc env).2 = []) ∧
    (¬ (err = none ∧ status = 200) →
      (performCloudCheck hc env).1 =
        { Success := false, Message := cloudFailureMessage status err } ∧
      (performCloudCheck hc env).2 =
        t ++ (sendAlertEmail env alertRecipients "⚠️ ALERT - API IS DOWN ⚠️"
          (cloudFailureMessage status err)).2 ∧
      alertBodies (performCloudCheck hc env).2 = [(performCloudCheck hc env).1.Message]) := by
  have ht : alertBodies t = [] := by
    have := alertBodies_DoAuth hc env
    rw [hout] at this
    exact this
  rw [performCloudCheck_of_DoAuth hc env status err t hauth hout]
  by_cases h : err = none ∧ status = 200
  · have hc2 : ¬ (err ≠ none ∨ status ≠ 200) := by
      rintro (h1 | h1)
      · exact h1 h.1
      · exact h1 h.2
    rw [if_neg hc2]
    exact ⟨⟨fun _ => h, fun _ => rfl⟩, fun _ => ⟨rfl, ht⟩, fun h2 => absurd h h2⟩
  · have hc2 : err ≠ none ∨ status ≠ 200 := by
      by_cases he : err = none
      · exact Or.inr (fun hs => h ⟨he, hs⟩)
      · exact Or.inl he
    rw [if_pos hc2]
    refine ⟨⟨fun h2 => (by cases h2), fun h2 => absurd h2 h⟩, fun h2 => absurd h2 h,
      fun _ => ⟨rfl, rfl, ?_⟩⟩
    rw [alertBodies_append, ht, alertBodies_sendAlertEmail]
    rfl

theorem performCloudCheck_success_iff_witness :
    ((performCloudCheck (sampleCloud true) sampleEnvSet).1.Success = true ↔
      ((none : Option String) = none ∧ (500 : Int) = 200)) ∧
    alertBodies (performCloudCheck (sampleCloud true) sampleEnvSet).2 =
      [(performCloudCheck (sampleCloud true) sampleEnvSet).1.Message] := by
  have h := performCloudCheck_success_iff (sampleCloud true) sampleEnvSet 500 none
    [Event.doAuth "http://api", Event.httpPost "http://api" "application/json" "x:x",
     Event.respBodyClose] rfl rfl
  exact ⟨h.1, (h.2.2 (by decide)).2.2⟩

/-- C6: when the authenticated request fails (an error, or a status other than
200), the Result of `performCloudCheck` is fixed by the outcome of `DoAuth`
alone: two worlds with the same outcome give the same failed Result whatever
the notifier does in either, and `Check` returns that Result instead of ending
the process. -/
theorem performCloudCheck_ignores_notifier (hc : TCPChecker) (env env2 : Env) (timeout : Int)
    (status : Int) (err : Option String)
    (hkind : hc.TCPOptions.hcType.typ = "cloud")
    (hauth : hc.TCPOptions.isAuth = true)
    (h1 : (DoAuth hc env).1 = (status, err)) (h2 : (DoAuth hc env2).1 = (status, err))
    (hfail : err ≠ none ∨ status ≠ 200) :
    (performCloudCheck hc env).1 =
      { Success := false, Message := cloudFailureMessage status err } ∧
    (performCloudCheck hc env2).1 = (performCloudCheck hc env).1 ∧
    (∃ t, Check hc timeout env =
      Run.ret { Success := false, Message := cloudFailureMessage status err } t) := by
  have e1 : DoAuth hc env = ((status, err), (DoAuth hc env).2) := by rw [← h1]
  have e2 : DoAuth hc env2 = ((status, err), (DoAuth hc env2).2) := by rw [← h2]
  have p1 := performCloudCheck_of_DoAuth hc env status err _ hauth e1
  have p2 := performCloudCheck_of_DoAuth hc env2 status err _ hauth e2
  rw [if_pos hfail] at p1 p2
  have hne : ¬ hc.TCPOptions.hcType.typ = "tcp" := by rw [hkind]; decide
  refine ⟨by rw [p1], by rw [p1, p2], ?_⟩
  unfold Check
  simp only [hne, hkind, if_false, if_true]
  rw [p1]
  exact ⟨_, rfl⟩

theorem performCloudCheck_ignores_notifier_witness :
    (sendAlertEmail sampleEnvMailOk alertRecipients "⚠️ ALERT - API IS DOWN ⚠️"
        (cloudFailureMessage 500 none)).1 = none ∧
    (sendAlertEmail sampleEnvNoTemplate alertRecipients "⚠️ ALERT - API IS DOWN ⚠️"
        (cloudFailureMessage 500 none)).1 =
      some "error parsing email template: file does not exist" ∧
    (performCloudCheck (sampleCloud true) sampleEnvNoTemplate).1 =
      (performCloudCheck (sampleCloud true) sampleEnvMailOk).1 := by
  have h := performCloudCheck_ignores_notifier (sampleCloud true) sampleEnvMailOk
    sampleEnvNoTemplate 5 500 none rfl rfl rfl rfl (by decide)
  exact ⟨rfl, rfl, h.2.1⟩

theorem String_append_ne_empty (a b : String) (h : a ≠ "") : a ++ b ≠ "" := by
  intro hab
  apply h
  have hl : (a ++ b).length = 0 := by rw [hab]; rfl
  rw [String.length_append] at hl
  have ha : a.length = 0 := by omega
  exact String.ext (List.eq_nil_of_length_eq_zero ha)

/-- C9, as the code has it: for every tcp checker and every timeout, `Check`
returns (it never ends the process) and its result is decided by the connection
attempt to `ip:port` alone: a connection gives success with the message "TCP
connection successful"; a network error `e` gives a failure whose message is
"Failed to connect: " followed by the description of `e`, hence non-empty. -/
theorem Check_tcp_result (hc : TCPChecker) (timeout : Int) (env : Env)
    (hkind : hc.TCPOptions.hcType.typ = "tcp") :
    (∃ r t, Check hc timeout env = Run.ret r t) ∧
    (env.dialTimeout "tcp" (dialAddr hc env) timeout = none →
      Check hc timeout env =
        Run.ret { Success := true, Message := "TCP connection successful" }
          [Event.dialTimeout "tcp" (dialAddr hc env) timeout, Event.connClose]) ∧
    (∀ e, env.dialTimeout "tcp" (dialAddr hc env) timeout = some e →
      Check hc timeout env =
        Run.ret { Success := false, Message := "Failed to connect: " ++ e }
          [Event.dialTimeout "tcp" (dialAddr hc env) timeout] ∧
      "Failed to connect: " ++ e ≠ "") := by
  refine ⟨Check_returns hc timeout env, ?_, ?_⟩
  · intro h
    unfold Check performTCPCheck addr
    unfold dialAddr at h
    simp only [hkind, ne_eq, not_true_eq_false, if_false, if_true, h]
    rfl
  · intro e h
    refine ⟨?_, String_append_ne_empty _ _ (by decide)⟩
    unfold Check performTCPCheck addr
    unfold dialAddr at h
    simp only [hkind, ne_eq, not_true_eq_false, if_false, if_true, h]
    rfl

theorem Check_tcp_result_witness :
    sampleTCP.TCPOptions.hcType.typ = "tcp" ∧
    Check sampleTCP 5 sampleEnv =
      Run.ret { Success := false, Message := "Failed to connect: connection refused" }
        [Event.dialTimeout "tcp" (dialAddr sampleTCP sampleEnv) 5] :=
  ⟨rfl, ((Check_tcp_result sampleTCP 5 sampleEnv rfl).2.2 "connection refused" rfl).1⟩

/-- C9 as stated fails: the message of a failed tcp check is not the
description of the network error itself. Here the error is "connection
refused" and the message is "Failed to connect: connection refused". -/
theorem Check_tcp_message_is_not_error :
    ¬ (∀ (hc : TCPChecker) (timeout : Int) (env : Env) (e : String),
        hc.TCPOptions.hcType.typ = "tcp" →
        env.dialTimeout "tcp" (dialAddr hc env) timeout = some e →
        ∃ t, Check hc timeout env = Run.ret { Success := false, Message := e } t) := by
  intro h
  obtain ⟨t, ht⟩ := h sampleTCP 5 sampleEnv "connection refused" rfl rfl
  have h2 : Check sampleTCP 5 sampleEnv =
      Run.ret { Success := false, Message := "Failed to connect: connection refused" }
        [Event.dialTimeout "tcp" "10.0.0.1:80" 5] := by
    simp [Check, performTCPCheck, addr, sampleTCP, sampleEnv]
    rfl
  rw [h2] at ht
  injection ht with hr _
  injection hr with _ hm
  exact absurd hm (by decide)

/-! ## The retry loop -/

theorem countChecks_append (a b : List LoopEvent) :
    countChecks (a ++ b) = countChecks a + countChecks b := by
  induction a with
  | nil => simp [countChecks]
  | cons e t ih =>
    cases e <;> simp [countChecks, ih]
    omega

theorem countSleeps_append (a b : List LoopEvent) :
    countSleeps (a ++ b) = countSleeps a + countSleeps b := by
  induction a with
  | nil => simp [countSleeps]
  | cons e t ih =>
    cases e <;> simp [countSleeps, ih]
    omega

theorem wrapInt_succ (x : Int) (h0 : 0 ≤ x) (h1 : x + 1 < 9223372036854775808) :
    wrapInt (x + 1) = x + 1 := by
  unfold wrapInt
  omega

theorem loopBody_of_Check (hc : TCPChecker) (world : Nat → Env) (retries retryDelay : Int)
    (s : LoopState) (r : Result) (t : List Event)
    (h : Check hc hc.Timeout (world s.calls) = Run.ret r t) :
    loopBody hc world retries retryDelay s =
      if retries ≠ -1 ∧ wrapInt (s.attempt + 1) ≥ retries then
        LoopStep.done (recordAttempt s r t (world s.calls).latency)
      else
        LoopStep.next (afterSleep s r t (world s.calls).latency retryDelay) := by
  unfold loopBody
  simp only [h]
  rfl

theorem loopAfter_succ_of_next (hc : TCPChecker) (world : Nat → Env) (retries retryDelay : Int)
    (k : Nat) (s : LoopState) (h : loopAfter hc world retries retryDelay k = LoopStep.next s) :
    loopAfter hc world retries retryDelay (k + 1) = loopBody hc world retries retryDelay s := by
  show (match loopAfter hc world retries retryDelay k with
    | .next s => loopBody hc world retries retryDelay s
    | other => other) = _
  rw [h]

/-- Once the loop has left through `break`, further fuel changes nothing. -/
theorem loopAfter_done_stable (hc : TCPChecker) (world : Nat → Env) (retries retryDelay : Int)
    (k : Nat) (s : LoopState) (h : loopAfter hc world retries retryDelay k = LoopStep.done s)
    (j : Nat) : loopAfter hc world retries retryDelay (k + j) = LoopStep.done s := by
  induction j with
  | zero => exact h
  | succ j ih =>
    show (match loopAfter hc world retries retryDelay (k + j) with
      | .next s => loopBody hc world retries retryDelay s
      | other => other) = _
    rw [ih]

theorem countChecks_recordAttempt (s : LoopState) (r : Result) (t : List Event) (d : Int) :
    countChecks (recordAttempt s r t d).trace = countChecks s.trace + 1 := by
  simp [recordAttempt, countChecks_append, countChecks]

theorem countSleeps_recordAttempt (s : LoopState) (r : Result) (t : List Event) (d : Int) :
    countSleeps (recordAttempt s r t d).trace = countSleeps s.trace := by
  simp [recordAttempt, countSleeps_append, countSleeps]

theorem countChecks_afterSleep (s : LoopState) (r : Result) (t : List Event) (d e : Int) :
    countChecks (afterSleep s r t d e).trace = countChecks s.trace + 1 := by
  simp [afterSleep, countChecks_append, countChecks_recordAttempt, countChecks]

theorem countSleeps_afterSleep (s : LoopState) (r : Result) (t : List Event) (d e : Int) :
    countSleeps (afterSleep s r t d e).trace = countSleeps s.trace + 1 := by
  simp [afterSleep, countSleeps_append, countSleeps_recordAttempt, countSleeps]

/-- With a bound `n` in the range of a Go int, the loop is still running after
every `k < n` passes, having made `k` calls and slept `k` times. -/
theorem loopAfter_before_bound (hc : TCPChecker) (world : Nat → Env) (n : Nat)
    (retryDelay : Int) (hmax : n < 9223372036854775808) (k : Nat) (hk : k < n) :
    ∃ s, loopAfter hc world (n : Int) retryDelay k = LoopStep.next s ∧
      s.attempt = (k : Int) ∧ s.calls = k ∧ countChecks s.trace = k ∧
      countSleeps s.trace = k := by
  induction k with
  | zero => exact ⟨initialState, rfl, rfl, rfl, rfl, rfl⟩
  | succ k ih =>
    obtain ⟨s, hs, ha, hc1, hc2, hc3⟩ := ih (by omega)
    obtain ⟨r, t, hrt⟩ := Check_returns hc hc.Timeout (world s.calls)
    have hw : wrapInt (s.attempt + 1) = (k : Int) + 1 := by
      rw [ha]; exact wrapInt_succ _ (by omega) (by omega)
    have hcond : ¬ ((n : Int) ≠ -1 ∧ wrapInt (s.attempt + 1) ≥ (n : Int)) := by
      rw [hw]; omega
    refine ⟨afterSleep s r t (world s.calls).latency retryDelay, ?_, ?_, ?_, ?_, ?_⟩
    · rw [loopAfter_succ_of_next _ _ _ _ _ _ hs, loopBody_of_Check _ _ _ _ _ _ _ hrt,
        if_neg hcond]
    · show wrapInt (s.attempt + 1) = ((k + 1 : Nat) : Int)
      rw [hw]; push_cast; rfl
    · show s.calls + 1 = k + 1
      rw [hc1]
    · rw [countChecks_afterSleep, hc2]
    · rw [countSleeps_afterSleep, hc3]

/-- C1: with a bound `n >= 1` (in the range of a Go int), any delay and any
sequence of probe outcomes, `CheckWithRetries` is still running after fewer
than `n` passes, and with `n` passes or more it has returned: it made exactly
`n` calls of `Check`, slept `n - 1` times, and returns the Result of the `n`-th
call. -/
theorem CheckWithRetries_bounded (hc : TCPChecker) (world : Nat → Env) (n : Nat)
    (retryDelay : Int) (hn : 1 ≤ n) (hmax : n < 9223372036854775808) (fuel : Nat) :
    (fuel < n → CheckWithRetries hc world (n : Int) retryDelay fuel = none) ∧
    (n ≤ fuel → ∃ r t tr,
      Check hc hc.Timeout (world (n - 1)) = Run.ret r t ∧
      CheckWithRetries hc world (n : Int) retryDelay fuel =
        some (LoopExit.returned (some r) tr) ∧
      countChecks tr = n ∧ countSleeps tr = n - 1) := by
  constructor
  · intro hf
    obtain ⟨s, hs, _⟩ := loopAfter_before_bound hc world n retryDelay hmax fuel hf
    unfold CheckWithRetries
    rw [hs]
  · intro hf
    obtain ⟨s, hs, ha, hc1, hc2, hc3⟩ :=
      loopAfter_before_bound hc world n retryDelay hmax (n - 1) (by omega)
    obtain ⟨r, t, hrt⟩ := Check_returns hc hc.Timeout (world s.calls)
    have hw : wrapInt (s.attempt + 1) = (n : Int) := by
      rw [ha, wrapInt_succ _ (by omega) (by omega)]; omega
    have hcond : (n : Int) ≠ -1 ∧ wrapInt (s.attempt + 1) ≥ (n : Int) := by
      rw [hw]; omega
    have hdone : loopAfter hc world (n : Int) retryDelay (n - 1 + 1) =
        LoopStep.done (recordAttempt s r t (world s.calls).latency) := by
      rw [loopAfter_succ_of_next _ _ _ _ _ _ hs, loopBody_of_Check _ _ _ _ _ _ _ hrt,
        if_pos hcond]
    have hfuel : fuel = (n - 1 + 1) + (fuel - n) := by omega
    have hstable := loopAfter_done_stable hc world (n : Int) retryDelay _ _ hdone (fuel - n)
    rw [← hfuel] at hstable
    refine ⟨r, t, (recordAttempt s r t (world s.calls).latency).trace, ?_, ?_, ?_, ?_⟩
    · rw [← hc1]; exact hrt
    · unfold CheckWithRetries
      rw [hstable]
      rfl
    · rw [countChecks_recordAttempt, hc2]; omega
    · rw [countSleeps_recordAttempt, hc3]

theorem CheckWithRetries_bounded_witness :
    ∃ r t tr,
      Check sampleTCP sampleTCP.Timeout sampleEnv = Run.ret r t ∧
      CheckWithRetries sampleTCP (fun _ => sampleEnv) ((3 : Nat) : Int) 10 4 =
        some (LoopExit.returned (some r) tr) ∧
      countChecks tr = 3 ∧ countSleeps tr = 3 - 1 :=
  (CheckWithRetries_bounded sampleTCP (fun _ => sampleEnv) 3 10 (by decide) (by decide) 4).2
    (by decide)

/-- C2: with the sentinel bound -1 the loop never leaves: for every sequence
of probe outcomes and every `k`, after `k` passes the loop is still running
with `k` calls of `Check` made and `k` sleeps done, `CheckWithRetries` has not
returned, and the next pass calls `Check` once more (whatever its Result, a
success included), logs it, sleeps for the delay and goes round again. -/
theorem CheckWithRetries_unbounded (hc : TCPChecker) (world : Nat → Env) (retryDelay : Int)
    (k : Nat) :
    ∃ s r t,
      loopAfter hc world (-1) retryDelay k = LoopStep.next s ∧
      s.calls = k ∧ countChecks s.trace = k ∧ countSleeps s.trace = k ∧
      CheckWithRetries hc world (-1) retryDelay k = none ∧
      Check hc hc.Timeout (world k) = Run.ret r t ∧
      loopAfter hc world (-1) retryDelay (k + 1) =
        LoopStep.next
          { attempt := wrapInt (s.attempt + 1),
            result := some r,
            calls := k + 1,
            trace := s.trace ++
              [LoopEvent.check k (Run.ret r t),
               LoopEvent.logWrite (logLine (wrapInt (s.attempt + 1)) r (world k).latency),
               LoopEvent.sleep retryDelay] } := by
  have hcond : ∀ x : Int, ¬ ((-1 : Int) ≠ -1 ∧ x ≥ -1) := fun x h => h.1 rfl
  have key : ∀ j : Nat, ∃ s, loopAfter hc world (-1) retryDelay j = LoopStep.next s ∧
      s.calls = j ∧ countChecks s.trace = j ∧ countSleeps s.trace = j := by
    intro j
    induction j with
    | zero => exact ⟨initialState, rfl, rfl, rfl, rfl⟩
    | succ j ih =>
      obtain ⟨s, hs, hc1, hc2, hc3⟩ := ih
      obtain ⟨r, t, hrt⟩ := Check_returns hc hc.Timeout (world s.calls)
      refine ⟨afterSleep s r t (world s.calls).latency retryDelay, ?_, ?_, ?_, ?_⟩
      · rw [loopAfter_succ_of_next _ _ _ _ _ _ hs, loopBody_of_Check _ _ _ _ _ _ _ hrt,
          if_neg (hcond _)]
      · show s.calls + 1 = j + 1
        rw [hc1]
      · rw [countChecks_afterSleep, hc2]
      · rw [countSleeps_afterSleep, hc3]
  obtain ⟨s, hs, hc1, hc2, hc3⟩ := key k
  obtain ⟨r, t, hrt⟩ := Check_returns hc hc.Timeout (world s.calls)
  refine ⟨s, r, t, hs, hc1, hc2, hc3, ?_, ?_, ?_⟩
  · unfold CheckWithRetries
    rw [hs]
  · rw [← hc1]; exact hrt
  · rw [loopAfter_succ_of_next _ _ _ _ _ _ hs, loopBody_of_Check _ _ _ _ _ _ _ hrt,
      if_neg (hcond _)]
    simp [afterSleep, recordAttempt, hc1]

/-- Whatever the bound, the loop never ends in a fatal exit, and when it has
left through `break` its result is the Result of the last `Check` call made. -/
theorem loopAfter_inv (hc : TCPChecker) (world : Nat → Env) (retries retryDelay : Int)
    (k : Nat) :
    (∀ s, loopAfter hc world retries retryDelay k = LoopStep.next s →
      s.calls = countChecks s.trace) ∧
    (∀ s, loopAfter hc world retries retryDelay k = LoopStep.done s →
      ∃ r t, s.result = some r ∧ 1 ≤ countChecks s.trace ∧
        Check hc hc.Timeout (world (countChecks s.trace - 1)) = Run.ret r t) ∧
    (∀ m s, loopAfter hc world retries retryDelay k ≠ LoopStep.fatal m s) := by
  induction k with
  | zero =>
    refine ⟨?_, ?_, ?_⟩
    · intro s hs
      have : LoopStep.next initialState = LoopStep.next s := hs
      injection this with h
      rw [← h]; rfl
    · intro s hs
      have : LoopStep.next initialState = LoopStep.done s := hs
      cases this
    · intro m s hs
      have : LoopStep.next initialState = LoopStep.fatal m s := hs
      cases this
  | succ k ih =>
    obtain ⟨ih1, ih2, ih3⟩ := ih
    cases hk : loopAfter hc world retries retryDelay k with
    | next s0 =>
      have hc0 := ih1 s0 hk
      obtain ⟨r, t, hrt⟩ := Check_returns hc hc.Timeout (world s0.calls)
      have hstep := loopAfter_succ_of_next hc world retries retryDelay k s0 hk
      rw [loopBody_of_Check _ _ _ _ _ _ _ hrt] at hstep
      by_cases hcond : retries ≠ -1 ∧ wrapInt (s0.attempt + 1) ≥ retries
      · rw [if_pos hcond] at hstep
        rw [hstep]
        refine ⟨?_, ?_, ?_⟩
        · intro s hs; cases hs
        · intro s hs
          injection hs with h
          subst h
          refine ⟨r, t, rfl, ?_, ?_⟩
          · rw [countChecks_recordAttempt]; omega
          · rw [countChecks_recordAttempt, ← hc0]
            exact hrt
        · intro m s hs; cases hs
      · rw [if_neg hcond] at hstep
        rw [hstep]
        refine ⟨?_, ?_, ?_⟩
        · intro s hs
          injection hs with h
          subst h
          rw [countChecks_afterSleep, ← hc0]
          rfl
        · intro s hs; cases hs
        · intro m s hs; cases hs
    | done s0 =>
      have hstep := loopAfter_done_stable hc world retries retryDelay k s0 hk 1
      rw [hstep]
      refine ⟨?_, ?_, ?_⟩
      · intro s hs; cases hs
      · intro s hs
        injection hs with h
        subst h
        exact ih2 s0 hk
      · intro m s hs; cases hs
    | fatal m s0 => exact absurd hk (ih3 m s0)

/-- C10: with a bound `retries <= 1` other than the sentinel -1 (so 1, 0 and
every other negative value), `CheckWithRetries` makes exactly one call of
`Check`, never sleeps, and returns the Result of that call. For every bound
whatsoever, a call that ends returns a non-nil Result, that of the last of at
least one `Check` call; it never ends in a fatal exit. -/
theorem CheckWithRetries_small_bound (hc : TCPChecker) (world : Nat → Env)
    (retries retryDelay : Int) (hle : retries ≤ 1) (hne : retries ≠ -1)
    (fuel : Nat) (hfuel : 1 ≤ fuel) :
    (∃ r t,
      Check hc hc.Timeout (world 0) = Run.ret r t ∧
      CheckWithRetries hc world retries retryDelay fuel =
        some (LoopExit.returned (some r)
          [LoopEvent.check 0 (Run.ret r t),
           LoopEvent.logWrite (logLine 1 r (world 0).latency)])) ∧
    CheckWithRetries hc world retries retryDelay 0 = none ∧
    (∀ (bound : Int) (gas : Nat) (res : Option Result) (tr : List LoopEvent),
      CheckWithRetries hc world bound retryDelay gas = some (LoopExit.returned res tr) →
      ∃ r t, res = some r ∧ 1 ≤ countChecks tr ∧
        Check hc hc.Timeout (world (countChecks tr - 1)) = Run.ret r t) ∧
    (∀ (bound : Int) (gas : Nat) (m : String) (tr : List LoopEvent),
      CheckWithRetries hc world bound retryDelay gas ≠ some (LoopExit.fatal m tr)) := by
  refine ⟨?_, rfl, ?_, ?_⟩
  · obtain ⟨r, t, hrt⟩ := Check_returns hc hc.Timeout (world 0)
    have hw : wrapInt ((0 : Int) + 1) = 1 := by decide
    have hcond : retries ≠ -1 ∧ wrapInt (initialState.attempt + 1) ≥ retries := by
      refine ⟨hne, ?_⟩
      show wrapInt ((0 : Int) + 1) ≥ retries
      rw [hw]; omega
    have hdone : loopAfter hc world retries retryDelay (0 + 1) =
        LoopStep.done (recordAttempt initialState r t (world 0).latency) := by
      rw [loopAfter_succ_of_next hc world retries retryDelay 0 initialState rfl,
        loopBody_of_Check hc world retries retryDelay initialState r t hrt, if_pos hcond]
      rfl
    have hstable := loopAfter_done_stable hc world retries retryDelay _ _ hdone (fuel - 1)
    have hf : 0 + 1 + (fuel - 1) = fuel := by omega
    rw [hf] at hstable
    refine ⟨r, t, hrt, ?_⟩
    unfold CheckWithRetries
    rw [hstable]
    show some (LoopExit.returned (some r)
      ([] ++ [LoopEvent.check 0 (Run.ret r t),
        LoopEvent.logWrite (logLine (wrapInt ((0 : Int) + 1)) r (world 0).latency)])) = _
    rw [hw]
    rfl
  · intro bound gas res tr h
    obtain ⟨_, h2, _⟩ := loopAfter_inv hc world bound retryDelay gas
    unfold CheckWithRetries at h
    cases hk : loopAfter hc world bound retryDelay gas with
    | next s => rw [hk] at h; cases h
    | done s =>
      rw [hk] at h
      injection h with h
      injection h with hres htr
      subst hres; subst htr
      exact h2 s hk
    | fatal m s => rw [hk] at h; cases h
  · intro bound gas m tr h
    obtain ⟨_, _, h3⟩ := loopAfter_inv hc world bound retryDelay gas
    unfold CheckWithRetries at h
    cases hk : loopAfter hc world bound retryDelay gas with
    | next s => rw [hk] at h; cases h
    | done s => rw [hk] at h; cases h
    | fatal m2 s => exact absurd hk (h3 m2 s)

theorem CheckWithRetries_small_bound_witness :
    ∃ r t,
      Check sampleTCP sampleTCP.Timeout sampleEnv = Run.ret r t ∧
      CheckWithRetries sampleTCP (fun _ => sampleEnv) 0 10 3 =
        some (LoopExit.returned (some r)
          [LoopEvent.check 0 (Run.ret r t),
           LoopEvent.logWrite (logLine 1 r sampleEnv.latency)]) :=
  (CheckWithRetries_small_bound sampleTCP (fun _ => sampleEnv) 0 10 (by decide) (by decide)
    3 (by decide)).1

/-! ## The notifier transport -/

/-- C8 fails on the code: when the mail server rejects the first recipient
(after the connection was opened and the SMTP session set up), `SendEmail`
returns the error "failed to set recipient: 550 rejected" and the connection is
still open at its return; nothing closed it. On the path where every step
succeeds, `client.Quit()` does end the session. -/
theorem SendEmail_leaks_on_rejected_recipient :
    (SendEmail sampleEnvSet sampleRequest).1 = some "failed to set recipient: 550 rejected" ∧
    (SendEmail sampleEnvSet sampleRequest).2.2 =
      [Event.smtpDial "tcp" "x:x", Event.smtpConnOpened, Event.smtpNewClient "x",
       Event.smtpStartTLS "x", Event.smtpAuth "x" "x", Event.smtpMail "x",
       Event.smtpRcpt "victorreisprog@gmail.com"] ∧
    connOpenAtEnd (SendEmail sampleEnvSet sampleRequest).2.2 = true ∧
    (SendEmail sampleEnvMailOk sampleRequest).1 = none ∧
    connOpenAtEnd (SendEmail sampleEnvMailOk sampleRequest).2.2 = false := by
  refine ⟨rfl, rfl, ?_, rfl, ?_⟩
  · decide
  · decide

end HealthChecker
